import Mathlib

/-!
Verification of the connection-lifecycle / durable-delivery core of the
WhatsApp bot service.  The definitions below are a shallow embedding of the
production entry point (the `index.js` sources of the repository): the retry
wrapper `withRetry` with exponential backoff and jitter, the recipient
normalization `toWhatsAppJID`, the `SessionLock` acquire logic, the
remote-store `clearSessionFromBucket`, the `MessageQueue` drain loop, the
`connection.update` event handler of `BaileysWhatsAppBot.setupEventHandlers`,
and the `POST /send-message` HTTP route.  JavaScript strings are embedded as
Lean `String`s, with the character-list operations `jsStartsWith`,
`jsEndsWith` and truthiness `jsFalsy` translating the corresponding
JavaScript primitives.  Timestamps and durations are `Nat` milliseconds;
the fractional backoff delays (jitter is `Math.random() * 0.1 * delay`) are
rationals, with `Math.random()` modelled as an oracle `Nat → ℚ` valued in
`[0, 1]`.
-/

namespace CONFIG

/-- `CONFIG.maxRetries` -/
def maxRetries : Nat := 3

/-- `CONFIG.baseRetryDelay` (ms), production entry point. -/
def baseRetryDelay : ℚ := 1000

/-- `CONFIG.maxRetryDelay` (ms). -/
def maxRetryDelay : ℚ := 30000

/-- `CONFIG.lockTtlMs` (5 minutes). -/
def lockTtlMs : Nat := 300000

/-- `CONFIG.qrDebounceMs` (5 seconds between QR generations). -/
def qrDebounceMs : Nat := 5000

/-- `CONFIG.messageQueueMaxSize` -/
def messageQueueMaxSize : Nat := 100

/-- `CONFIG.messageRetryDelay` (ms). -/
def messageRetryDelay : Nat := 2000

/-- The fixed 5000 ms reconnect delay hard-coded in the close handler
(`setTimeout(..., 5000)`). -/
def reconnectDelayMs : Nat := 5000

/-- `CONFIG.sessionsPrefix` with the default environment:
`('sessions/whatsapp-bot').replace(trailing slashes) + '/'`. -/
def sessionsPref : String := "sessions/whatsapp-bot/"

end CONFIG

namespace DisconnectReason

/-- Baileys `DisconnectReason.loggedOut` status code. -/
def loggedOut : Nat := 401

end DisconnectReason

/-- JavaScript `String.prototype.startsWith`, over the character lists of the
embedded strings. -/
def jsStartsWith (s pre : String) : Bool := pre.data.isPrefixOf s.data

/-- JavaScript `String.prototype.endsWith`, over the character lists of the
embedded strings. -/
def jsEndsWith (s suffix : String) : Bool := suffix.data.isSuffixOf s.data

/-- JavaScript truthiness of an optional string field: `undefined` and the
empty string are falsy, every other string is truthy. -/
def jsFalsy (o : Option String) : Bool :=
  match o with
  | none => true
  | some s => s == ""

-- ========================
-- toWhatsAppJID  (identical in both entry points)
-- ========================

/-- The characters of the literal `'@s.whatsapp.net'` appended by
`toWhatsAppJID`. -/
def jidSuffixChars : List Char := "@s.whatsapp.net".data

/-- `const cleaned = phoneNumber.replace(/\D/g, '')`: keep only digits. -/
def digitsOnly (l : List Char) : List Char := l.filter Char.isDigit

/-- `if (!formatted.startsWith('55') && formatted.length <= 11) formatted = '55' + formatted` -/
def addCountryCode (d : List Char) : List Char :=
  if ¬ (['5', '5'].isPrefixOf d = true) ∧ d.length ≤ 11 then '5' :: '5' :: d else d

/-- `if (!formatted.includes('@')) formatted += '@s.whatsapp.net'` -/
def addJidSuffix (f : List Char) : List Char :=
  if ¬ (f.contains '@' = true) then f ++ jidSuffixChars else f

/-- `function toWhatsAppJID(phoneNumber)` from `index.js`. -/
def toWhatsAppJID (s : String) : String :=
  String.mk (addJidSuffix (addCountryCode (digitsOnly s.data)))

-- ========================
-- SessionLock  (production entry point)
-- ========================

/-- The JSON lock record written by `SessionLock.acquireLock`:
`{instanceId, timestamp: Date.now(), ttl: CONFIG.lockTtlMs}`. -/
structure LockRecord where
  instanceId : Nat
  timestamp : Nat
  ttl : Nat
  deriving DecidableEq, Repr

/-- `SessionLock.releaseLock`: deletes the lock object (a missing object is
not an error), so the store afterwards holds no record. -/
def releaseLock (_store : Option LockRecord) : Option LockRecord := none

/-- `SessionLock.acquireLock`, sequential semantics over the remote store
modelled as `Option LockRecord`.  `file.save(..., ifGenerationMatch: 0)`
succeeds exactly when no object exists; on the 412 conflict the existing
record is downloaded and, if `Date.now() - lockData.timestamp > lockData.ttl`,
the lock is released (deleted) and acquisition is re-run; otherwise the
call returns `false` and the record is untouched. -/
def acquireLock (instId now : Nat) : Option LockRecord → Bool × Option LockRecord
  | none =>
      (true, some { instanceId := instId, timestamp := now, ttl := CONFIG.lockTtlMs })
  | some rec =>
      if rec.ttl < now - rec.timestamp then
        acquireLock instId now (releaseLock (some rec))
      else
        (false, some rec)
termination_by store => store.elim 0 fun _ => 1
decreasing_by simp [releaseLock]

-- ========================
-- withRetry  (production entry point: exponential backoff with jitter)
-- ========================

/-- Observable outcome of one `withRetry` call: the returned/raised value
(`Except.ok none` models the `undefined` return when the loop body never
runs), the number of times `operation` was invoked, the backoff delays
slept between attempts, and the error-level log emitted on final failure
(operation name and attempt count). -/
structure RetryTrace (E A : Type) where
  result : Except E (Option A)
  invocations : Nat
  delays : List ℚ
  finalLog : Option (String × Nat)

/-- `getBackoffDelay(attempt)`: `exponentialDelay = baseDelay * 2^(attempt-1)`,
`jitter = Math.random() * 0.1 * exponentialDelay`,
`Math.min(exponentialDelay + jitter, CONFIG.maxRetryDelay)`.  The random
draw of the `attempt`-th call is the oracle value `rand attempt ∈ [0,1]`. -/
def getBackoffDelay (rand : Nat → ℚ) (attempt : Nat) : ℚ :=
  let exponentialDelay := CONFIG.baseRetryDelay * 2 ^ (attempt - 1)
  let jitter := rand attempt * (1 / 10) * exponentialDelay
  min (exponentialDelay + jitter) CONFIG.maxRetryDelay

/-- The `for (let attempt = 1; attempt <= maxRetries; attempt++)` loop of
`withRetry`, entered at loop counter `attempt`.  `op k` is the outcome of
the `k`-th invocation of `operation`.  Falling out of the loop returns
`undefined` (`Except.ok none`); a success returns the value; the last
failed attempt logs `(operationName, maxRetries)` and re-raises; any other
failure sleeps `getBackoffDelay(attempt)` and continues. -/
def withRetryFrom {E A : Type} (op : Nat → Except E A) (operationName : String)
    (rand : Nat → ℚ) (maxRetries : Nat) (attempt : Nat) : RetryTrace E A :=
  if _h : maxRetries < attempt then
    { result := Except.ok none, invocations := 0, delays := [], finalLog := none }
  else
    match op attempt with
    | Except.ok a =>
        { result := Except.ok (some a), invocations := 1, delays := [], finalLog := none }
    | Except.error e =>
        if attempt = maxRetries then
          { result := Except.error e, invocations := 1, delays := [],
            finalLog := some (operationName, maxRetries) }
        else
          let rest := withRetryFrom op operationName rand maxRetries (attempt + 1)
          { result := rest.result, invocations := rest.invocations + 1,
            delays := getBackoffDelay rand attempt :: rest.delays,
            finalLog := rest.finalLog }
termination_by maxRetries + 1 - attempt
decreasing_by omega

/-- `async function withRetry(operation, operationName, maxRetries)`. -/
def withRetry {E A : Type} (op : Nat → Except E A) (operationName : String)
    (maxRetries : Nat) (rand : Nat → ℚ) : RetryTrace E A :=
  withRetryFrom op operationName rand maxRetries 1

-- ========================
-- MessageQueue  (production entry point)
-- ========================

/-- A `PendingMessage` as pushed by `MessageQueue.enqueue`:
`{to, message, retries, timestamp}` (the JavaScript field `to` is embedded
as `toAddr`, `to` being reserved in Lean). -/
structure PendingMessage where
  toAddr : String
  message : String
  retries : Nat
  timestamp : Nat
  deriving DecidableEq, Repr

/-- `MessageQueue.enqueue(to, message, retries)`: rejects (returns `false`,
queue unchanged) when `queue.length >= CONFIG.messageQueueMaxSize`,
otherwise pushes the new message to the back. -/
def enqueue (q : List PendingMessage) (toAddr message : String) (retries timestamp : Nat) :
    Bool × List PendingMessage :=
  if CONFIG.messageQueueMaxSize ≤ q.length then
    (false, q)
  else
    (true,
     q ++ [{ toAddr := toAddr, message := message, retries := retries, timestamp := timestamp }])

/-- One observable iteration of the `processQueue` drain loop; each event is
paired below with the queue contents left behind after the iteration. -/
inductive QueueEvent where
  /-- the send attempt succeeded and the message left the queue -/
  | sent (item : PendingMessage)
  /-- the send attempt failed with `retries > 1`: the message is decremented
  and pushed back to the front (`unshift`) -/
  | failedRequeued (item : PendingMessage)
  /-- the send attempt failed with `retries <= 1`: the message is dropped -/
  | failedDropped (item : PendingMessage)
  deriving DecidableEq, Repr

/-- Measure for the drain loop: every iteration either removes a message or
decrements its retry budget. -/
def qMeasure (q : List PendingMessage) : Nat := (q.map (fun m => m.retries + 1)).sum

/-- `MessageQueue.processQueue()`: `while (queue.length > 0)` shift the front
item, attempt the send, and on failure with `item.retries > 1` decrement and
`unshift` the item back to the front.  `sendOk k` is the outcome of the
`k`-th send attempt of this drain (the sequential oracle for
`this.sendMessage`, which throws whenever the bot is not connected or the
engine send fails).  The trace records each iteration's event together with
the queue contents immediately after that iteration. -/
def processQueue (sendOk : Nat → Bool) : Nat → List PendingMessage →
    List (QueueEvent × List PendingMessage)
  | _, [] => []
  | k, item :: rest =>
    if sendOk k then
      (QueueEvent.sent item, rest) :: processQueue sendOk (k + 1) rest
    else if _h : 1 < item.retries then
      (QueueEvent.failedRequeued item, { item with retries := item.retries - 1 } :: rest) ::
        processQueue sendOk (k + 1) ({ item with retries := item.retries - 1 } :: rest)
    else
      (QueueEvent.failedDropped item, rest) :: processQueue sendOk (k + 1) rest
termination_by _ q => qMeasure q
decreasing_by
  · simp only [qMeasure, List.map_cons, List.sum_cons]
    omega
  · simp only [qMeasure, List.map_cons, List.sum_cons]
    omega
  · simp only [qMeasure, List.map_cons, List.sum_cons]
    omega

/-- The trace a front message with budget `N = m.retries` produces under
permanent failure: one front-requeue for each budget value `N, N-1, ..., 2`
(the item re-enters at the head of the queue with the budget decremented),
then a final drop at budget 1.  `List.range' 2 (N-1)` is `[2, ..., N]`, so
its reverse runs through the budgets in execution order. -/
def exhaustTrace (m : PendingMessage) (rest : List PendingMessage) :
    List (QueueEvent × List PendingMessage) :=
  ((List.range' 2 (m.retries - 1)).reverse.map (fun r =>
      (QueueEvent.failedRequeued { m with retries := r },
       { m with retries := r - 1 } :: rest))) ++
    [(QueueEvent.failedDropped { m with retries := 1 }, rest)]

-- ========================
-- Session Store clear()  (production entry point)
-- ========================

/-- `clearSessionFromBucket()` (production entry point): lists the objects
under the sessions prefix (`bucket.getFiles({prefix})`), filters the listing
with `!f.name.endsWith('lock.json')` and deletes the filtered batch.  The
result is the remote object set after the call: objects outside the prefix
are never listed, and listed objects whose names end with `lock.json` are
excluded from deletion. -/
def clearSessionFromBucket (pref : String) (objects : List String) : List String :=
  objects.filter (fun nm => !(jsStartsWith nm pref) || jsEndsWith nm "lock.json")

-- ========================
-- Connection manager state machine  (setupEventHandlers / shutdown)
-- ========================

/-- The close reason attached to a `connection.update` with
`connection === 'close'`.  `boomStatusCode = some code` models
`lastDisconnect.error instanceof Boom` with `error.output.statusCode = code`;
`boomStatusCode = none` models a non-Boom error. -/
structure CloseErr where
  boomStatusCode : Option Nat
  message : String
  deriving DecidableEq, Repr

/-- `connection` field values of a `connection.update`. -/
inductive ConnStatus where
  | connecting
  | opened
  | closed
  deriving DecidableEq, Repr

/-- A Baileys `connection.update` payload: `{connection, lastDisconnect, qr}`,
each field optional. -/
structure ConnUpdate where
  connection : Option ConnStatus
  lastDisconnect : Option CloseErr
  qr : Option String
  deriving DecidableEq, Repr

/-- The mutable fields of `BaileysWhatsAppBot` touched by the event
handlers, together with the two external stores and the observables of
reconnect scheduling: `localFiles` is the contents of the local session
directory, `remoteObjects` the remote object names, `reconnectTimers` the
delays of scheduled-but-unfired reconnect `setTimeout`s, and
`connectAttempts` counts executed `connectToWhatsApp()` calls from fired
reconnect timers. -/
structure BotState where
  isConnected : Bool
  isShuttingDown : Bool
  qrCodeBase64 : Option String
  lastQRTime : Nat
  localFiles : List String
  remoteObjects : List String
  reconnectTimers : List Nat
  connectAttempts : Nat
  deriving DecidableEq, Repr

/-- `lastDisconnect?.error instanceof Boom &&
error.output.statusCode === DisconnectReason.loggedOut`. -/
def isLoggedOutErr (e : Option CloseErr) : Bool :=
  match e with
  | some err =>
      match err.boomStatusCode with
      | some code => code == DisconnectReason.loggedOut
      | none => false
  | none => false

/-- `shouldReconnect = lastDisconnect?.error instanceof Boom
? statusCode !== loggedOut : true`. -/
def shouldReconnectOf (e : Option CloseErr) : Bool :=
  match e with
  | some err =>
      match err.boomStatusCode with
      | some code => code != DisconnectReason.loggedOut
      | none => true
  | none => true

/-- The `connection === 'close'` branch of the `connection.update` handler:
drop the connected flag and the exposed artifact; on a Boom `loggedOut`
reason delete+recreate the local session directory and clear the bucket;
finally, when `shouldReconnect` holds and the bot is not shutting down,
schedule one reconnect `setTimeout` of `CONFIG.reconnectDelayMs`. -/
def handleClose (s : BotState) (lastDisconnect : Option CloseErr) : BotState :=
  let s1 := { s with isConnected := false, qrCodeBase64 := none }
  let s2 :=
    if isLoggedOutErr lastDisconnect then
      { s1 with localFiles := [],
                remoteObjects := clearSessionFromBucket CONFIG.sessionsPref s1.remoteObjects }
    else s1
  if shouldReconnectOf lastDisconnect && !s.isShuttingDown then
    { s2 with reconnectTimers := s2.reconnectTimers ++ [CONFIG.reconnectDelayMs] }
  else s2

/-- The `connection`-status part of the `connection.update` handler:
`close` runs `handleClose`, `open` marks connected and clears the exposed
artifact, `connecting` and an absent field change nothing. -/
def connectionStatusHandler (s : BotState) (u : ConnUpdate) : BotState :=
  match u.connection with
  | some ConnStatus.closed => handleClose s u.lastDisconnect
  | some ConnStatus.opened => { s with isConnected := true, qrCodeBase64 := none }
  | some ConnStatus.connecting => s
  | none => s

/-- The full `connection.update` handler: if the update carries a `qr`
token, a challenge within `CONFIG.qrDebounceMs` of the last one returns
early from the whole handler; otherwise the debounce timer is reset and the
freshly rendered artifact (`QRCode.toDataURL`, modelled by the total
rendering oracle `renderQR`) is exposed before the `connection` field is
processed. -/
def connectionUpdateHandler (renderQR : String → String) (now : Nat)
    (s : BotState) (u : ConnUpdate) : BotState :=
  match u.qr with
  | some token =>
      if now - s.lastQRTime < CONFIG.qrDebounceMs then s
      else
        connectionStatusHandler
          { s with lastQRTime := now, qrCodeBase64 := some (renderQR token) } u
  | none => connectionStatusHandler s u

/-- Events driving the bot: a `connection.update` emission, the `shutdown()`
call from a signal handler, and the firing of one scheduled reconnect
`setTimeout`. -/
inductive BotEvent where
  | connUpdate (now : Nat) (u : ConnUpdate)
  | shutdownSignal
  | reconnectTimerFire
  deriving DecidableEq, Repr

/-- One event-loop step of the bot.  `shutdownSignal` models `shutdown()`
setting the one-way `isShuttingDown` flag (its final save/upload, socket
close and lock release do not touch the fields modelled here).
`reconnectTimerFire` is a scheduled reconnect callback firing: it re-checks
`isShuttingDown` and only calls `connectToWhatsApp()` (counted by
`connectAttempts`) when the flag is still unset. -/
def step (renderQR : String → String) (s : BotState) : BotEvent → BotState
  | BotEvent.connUpdate now u => connectionUpdateHandler renderQR now s u
  | BotEvent.shutdownSignal => { s with isShuttingDown := true }
  | BotEvent.reconnectTimerFire =>
      match s.reconnectTimers with
      | [] => s
      | _ :: ts =>
          if s.isShuttingDown then { s with reconnectTimers := ts }
          else { s with reconnectTimers := ts, connectAttempts := s.connectAttempts + 1 }

-- ========================
-- POST /send-message  (production entry point)
-- ========================

/-- The observable parts of the HTTP response of `POST /send-message`:
status code, the `success` flag, the optional `queued` flag, the normalized
`to` identifier of the 200 body, and the `error` message of failure
bodies. -/
structure HttpResponse where
  status : Nat
  success : Bool
  queued : Option Bool
  toJid : Option String
  errorMsg : Option String
  deriving DecidableEq, Repr

/-- The `POST /send-message` route handler (production entry point):
`400` when `!to || !message`; `503` when `!this.isConnected || !this.sock`;
otherwise `messageQueue.enqueue(to, message)` (default budget 3) and `503`
when the enqueue reports the queue full, else `200 {success, queued, to}`.
Returns the response together with the queue after the call. -/
def handleSendMessage (toField messageField : Option String)
    (isConnected sockPresent : Bool) (q : List PendingMessage) (now : Nat) :
    HttpResponse × List PendingMessage :=
  if jsFalsy toField || jsFalsy messageField then
    ({ status := 400, success := false, queued := none, toJid := none,
       errorMsg := some "Missing required fields: to, message" }, q)
  else if !isConnected || !sockPresent then
    ({ status := 503, success := false, queued := none, toJid := none,
       errorMsg := some "WhatsApp not connected. Please scan QR code first." }, q)
  else
    let res := enqueue q (toField.getD "") (messageField.getD "") 3 now
    if !res.1 then
      ({ status := 503, success := false, queued := none, toJid := none,
         errorMsg := some "Message queue full. Please try again later." }, res.2)
    else
      ({ status := 200, success := true, queued := some true,
         toJid := some (toWhatsAppJID (toField.getD "")), errorMsg := none }, res.2)

lemma digitsOnly_all (l : List Char) : ∀ c ∈ digitsOnly l, c.isDigit = true := by
  intro c hc
  exact List.of_mem_filter hc

lemma addCountryCode_all (d : List Char) (hd : ∀ c ∈ d, c.isDigit = true) :
    ∀ c ∈ addCountryCode d, c.isDigit = true := by
  unfold addCountryCode
  split
  · intro c hc
    simp only [List.mem_cons] at hc
    rcases hc with rfl | rfl | hc
    · decide
    · decide
    · exact hd c hc
  · exact hd

lemma addJidSuffix_of_digits (f : List Char) (hf : ∀ c ∈ f, c.isDigit = true) :
    addJidSuffix f = f ++ jidSuffixChars := by
  have h : ¬ (f.contains '@' = true) := by
    intro h
    have hmem : '@' ∈ f := by simpa using h
    have := hf '@' hmem
    simp at this
  unfold addJidSuffix
  rw [if_pos h]

lemma digitsOnly_of_all (l : List Char) (hl : ∀ c ∈ l, c.isDigit = true) :
    digitsOnly l = l :=
  List.filter_eq_self.mpr hl

lemma digitsOnly_jidSuffix : digitsOnly jidSuffixChars = [] := by decide

lemma addCountryCode_idem (d : List Char) :
    addCountryCode (addCountryCode d) = addCountryCode d := by
  unfold addCountryCode
  by_cases h : ¬ (['5', '5'].isPrefixOf d = true) ∧ d.length ≤ 11
  · rw [if_pos h]
    have h2 : (['5', '5'].isPrefixOf ('5' :: '5' :: d)) = true := by
      simp [List.isPrefixOf]
    rw [if_neg]
    intro hcon
    exact hcon.1 h2
  · rw [if_neg h, if_neg h]

/-- Claim C9: `toWhatsAppJID` is idempotent, and every output ends with the
suffix `@s.whatsapp.net`.  After stripping non-digits the value contains no
`'@'`, so the suffix is always appended; re-running the function strips the
suffix back off and the country-code step is idempotent. -/
theorem toWhatsAppJID_idem_and_suffixed (s : String) :
    toWhatsAppJID (toWhatsAppJID s) = toWhatsAppJID s ∧
      jidSuffixChars <:+ (toWhatsAppJID s).data := by
  have hdig : ∀ c ∈ addCountryCode (digitsOnly s.data), c.isDigit = true :=
    addCountryCode_all _ (digitsOnly_all _)
  have h1 : toWhatsAppJID s =
      String.mk (addCountryCode (digitsOnly s.data) ++ jidSuffixChars) := by
    unfold toWhatsAppJID
    rw [addJidSuffix_of_digits _ hdig]
  constructor
  · have hinner : digitsOnly (addCountryCode (digitsOnly s.data) ++ jidSuffixChars)
        = addCountryCode (digitsOnly s.data) := by
      show (addCountryCode (digitsOnly s.data) ++ jidSuffixChars).filter Char.isDigit = _
      rw [List.filter_append, List.filter_eq_self.mpr hdig]
      have h2 : jidSuffixChars.filter Char.isDigit = [] := digitsOnly_jidSuffix
      rw [h2, List.append_nil]
    rw [h1]
    show String.mk (addJidSuffix (addCountryCode (digitsOnly
      (addCountryCode (digitsOnly s.data) ++ jidSuffixChars)))) = _
    rw [hinner, addCountryCode_idem, addJidSuffix_of_digits _ hdig]
  · rw [h1]
    exact ⟨addCountryCode (digitsOnly s.data), rfl⟩

/-- Claim C2: an acquire attempt that finds a record whose age exceeds its
TTL deletes the stale record and retries, so the new caller acquires the
lock (and installs its own record); a non-expired record makes the attempt
return `false` with the record unchanged. -/
theorem acquireLock_stale_break_and_contention (instId now : Nat) (rec : LockRecord) :
    (rec.ttl < now - rec.timestamp →
      acquireLock instId now (some rec) =
        (true, some { instanceId := instId, timestamp := now, ttl := CONFIG.lockTtlMs })) ∧
    (¬ rec.ttl < now - rec.timestamp →
      acquireLock instId now (some rec) = (false, some rec)) := by
  constructor
  · intro h
    rw [acquireLock, if_pos h]
    simp [releaseLock, acquireLock]
  · intro h
    rw [acquireLock, if_neg h]

/-- Witness for C2 at concrete inputs: a record aged 300001 ms with TTL
300000 is broken and re-acquired; a record aged 1000 ms is not. -/
theorem acquireLock_stale_break_and_contention_witness :
    acquireLock 7 300001 (some { instanceId := 1, timestamp := 0, ttl := 300000 }) =
      (true, some { instanceId := 7, timestamp := 300001, ttl := CONFIG.lockTtlMs }) ∧
    acquireLock 7 1000 (some { instanceId := 1, timestamp := 0, ttl := 300000 }) =
      (false, some { instanceId := 1, timestamp := 0, ttl := 300000 }) :=
  ⟨(acquireLock_stale_break_and_contention 7 300001 _).1 (by decide),
   (acquireLock_stale_break_and_contention 7 1000 _).2 (by decide)⟩

lemma withRetryFrom_gt {E A : Type} (op : Nat → Except E A) (name : String)
    (rand : Nat → ℚ) (maxRetries attempt : Nat) (h : maxRetries < attempt) :
    withRetryFrom op name rand maxRetries attempt =
      { result := Except.ok none, invocations := 0, delays := [], finalLog := none } := by
  rw [withRetryFrom]
  simp [h]

lemma withRetryFrom_ok {E A : Type} (op : Nat → Except E A) (name : String)
    (rand : Nat → ℚ) (maxRetries attempt : Nat) (a : A)
    (h : ¬ maxRetries < attempt) (ha : op attempt = Except.ok a) :
    withRetryFrom op name rand maxRetries attempt =
      { result := Except.ok (some a), invocations := 1, delays := [], finalLog := none } := by
  rw [withRetryFrom]
  simp [h, ha]

lemma withRetryFrom_err_last {E A : Type} (op : Nat → Except E A) (name : String)
    (rand : Nat → ℚ) (maxRetries attempt : Nat) (e : E)
    (h : ¬ maxRetries < attempt) (he : op attempt = Except.error e)
    (hlast : attempt = maxRetries) :
    withRetryFrom op name rand maxRetries attempt =
      { result := Except.error e, invocations := 1, delays := [],
        finalLog := some (name, maxRetries) } := by
  subst hlast
  rw [withRetryFrom]
  simp [h, he]

lemma withRetryFrom_err_step {E A : Type} (op : Nat → Except E A) (name : String)
    (rand : Nat → ℚ) (maxRetries attempt : Nat) (e : E)
    (h : ¬ maxRetries < attempt) (he : op attempt = Except.error e)
    (hne : attempt ≠ maxRetries) :
    withRetryFrom op name rand maxRetries attempt =
      { result := (withRetryFrom op name rand maxRetries (attempt + 1)).result,
        invocations := (withRetryFrom op name rand maxRetries (attempt + 1)).invocations + 1,
        delays := getBackoffDelay rand attempt ::
          (withRetryFrom op name rand maxRetries (attempt + 1)).delays,
        finalLog := (withRetryFrom op name rand maxRetries (attempt + 1)).finalLog } := by
  rw [withRetryFrom]
  simp [h, he, hne]

lemma withRetryFrom_all_fail {E A : Type} (op : Nat → Except E A) (name : String)
    (rand : Nat → ℚ) (maxRetries : Nat) (err : Nat → E) :
    ∀ n attempt, attempt + n = maxRetries → 1 ≤ attempt →
      (∀ j, attempt ≤ j → j ≤ maxRetries → op j = Except.error (err j)) →
      withRetryFrom op name rand maxRetries attempt =
        { result := Except.error (err maxRetries), invocations := n + 1,
          delays := (List.range' attempt n).map (getBackoffDelay rand),
          finalLog := some (name, maxRetries) } := by
  intro n
  induction n with
  | zero =>
      intro attempt h0 h1 hop
      have ha : attempt = maxRetries := by omega
      rw [withRetryFrom_err_last op name rand maxRetries attempt (err attempt)
        (by omega) (hop attempt le_rfl (by omega)) ha]
      rw [ha]
      rfl
  | succ n ih =>
      intro attempt h0 h1 hop
      rw [withRetryFrom_err_step op name rand maxRetries attempt (err attempt)
        (by omega) (hop attempt le_rfl (by omega)) (by omega)]
      rw [ih (attempt + 1) (by omega) (by omega)
        (fun j hj hj2 => hop j (by omega) hj2)]
      rw [List.range'_succ]
      rfl

lemma withRetryFrom_first_ok {E A : Type} (op : Nat → Except E A) (name : String)
    (rand : Nat → ℚ) (maxRetries : Nat) (a : A) :
    ∀ n attempt, attempt + n ≤ maxRetries → 1 ≤ attempt →
      op (attempt + n) = Except.ok a →
      (∀ j, attempt ≤ j → j < attempt + n → ∃ e, op j = Except.error e) →
      withRetryFrom op name rand maxRetries attempt =
        { result := Except.ok (some a), invocations := n + 1,
          delays := (List.range' attempt n).map (getBackoffDelay rand),
          finalLog := none } := by
  intro n
  induction n with
  | zero =>
      intro attempt h0 h1 hok _
      rw [withRetryFrom_ok op name rand maxRetries attempt a (by omega) hok]
      rfl
  | succ n ih =>
      intro attempt h0 h1 hok hfail
      obtain ⟨e, he⟩ := hfail attempt le_rfl (by omega)
      rw [withRetryFrom_err_step op name rand maxRetries attempt e
        (by omega) he (by omega)]
      rw [ih (attempt + 1) (by omega) (by omega)
        (by rw [show attempt + 1 + n = attempt + (n + 1) by omega]; exact hok)
        (fun j hj hj2 => hfail j (by omega) (by omega))]
      rw [List.range'_succ]
      rfl

lemma withRetryFrom_invocations_le {E A : Type} (op : Nat → Except E A) (name : String)
    (rand : Nat → ℚ) (maxRetries : Nat) :
    ∀ n attempt, maxRetries + 1 ≤ attempt + n →
      (withRetryFrom op name rand maxRetries attempt).invocations ≤ n := by
  intro n
  induction n with
  | zero =>
      intro attempt h0
      rw [withRetryFrom_gt op name rand maxRetries attempt (by omega)]
  | succ n ih =>
      intro attempt h0
      by_cases hgt : maxRetries < attempt
      · rw [withRetryFrom_gt op name rand maxRetries attempt hgt]
        exact Nat.zero_le _
      · cases hop : op attempt with
        | ok a =>
            rw [withRetryFrom_ok op name rand maxRetries attempt a hgt hop]
            show 1 ≤ n + 1
            omega
        | error e =>
            by_cases hlast : attempt = maxRetries
            · rw [withRetryFrom_err_last op name rand maxRetries attempt e hgt hop hlast]
              show 1 ≤ n + 1
              omega
            · rw [withRetryFrom_err_step op name rand maxRetries attempt e hgt hop hlast]
              have := ih (attempt + 1) (by omega)
              show (withRetryFrom op name rand maxRetries (attempt + 1)).invocations + 1 ≤ n + 1
              omega

lemma getBackoffDelay_form (rand : Nat → ℚ) (k : Nat)
    (h0 : 0 ≤ rand k) (h1 : rand k ≤ 1) :
    ∃ j : ℚ, 0 ≤ j ∧ j ≤ CONFIG.baseRetryDelay * 2 ^ (k - 1) / 10 ∧
      getBackoffDelay rand k =
        min (CONFIG.baseRetryDelay * 2 ^ (k - 1) + j) CONFIG.maxRetryDelay := by
  refine ⟨rand k * (1 / 10) * (CONFIG.baseRetryDelay * 2 ^ (k - 1)), ?_, ?_, rfl⟩
  · have he : (0 : ℚ) ≤ CONFIG.baseRetryDelay * 2 ^ (k - 1) := by
      unfold CONFIG.baseRetryDelay
      positivity
    nlinarith
  · have he : (0 : ℚ) ≤ CONFIG.baseRetryDelay * 2 ^ (k - 1) := by
      unfold CONFIG.baseRetryDelay
      positivity
    nlinarith

/-- Claim C4: for every operation and `maxRetries ≥ 1`, `withRetry` invokes
the operation at most `maxRetries` times; it returns the first successful
result (invoking the operation exactly as often as needed); between failed
attempt `k` and the next attempt it sleeps `baseDelay * 2^(k-1)` plus up to
10% jitter, capped at `CONFIG.maxRetryDelay`; when every attempt fails it
re-raises the last error after logging the operation name and attempt
count. -/
theorem withRetry_contract {E A : Type} (op : Nat → Except E A) (operationName : String)
    (rand : Nat → ℚ) (maxRetries : Nat)
    (hrand : ∀ k, 0 ≤ rand k ∧ rand k ≤ 1) (hmax : 1 ≤ maxRetries) :
    (withRetry op operationName maxRetries rand).invocations ≤ maxRetries ∧
    (∀ s a, 1 ≤ s → s ≤ maxRetries → op s = Except.ok a →
      (∀ j, 1 ≤ j → j < s → ∃ e, op j = Except.error e) →
      withRetry op operationName maxRetries rand =
        { result := Except.ok (some a), invocations := s,
          delays := (List.range' 1 (s - 1)).map (getBackoffDelay rand),
          finalLog := none }) ∧
    (∀ err : Nat → E, (∀ j, 1 ≤ j → j ≤ maxRetries → op j = Except.error (err j)) →
      withRetry op operationName maxRetries rand =
        { result := Except.error (err maxRetries), invocations := maxRetries,
          delays := (List.range' 1 (maxRetries - 1)).map (getBackoffDelay rand),
          finalLog := some (operationName, maxRetries) }) ∧
    (∀ k, ∃ j : ℚ, 0 ≤ j ∧ j ≤ CONFIG.baseRetryDelay * 2 ^ (k - 1) / 10 ∧
      getBackoffDelay rand k =
        min (CONFIG.baseRetryDelay * 2 ^ (k - 1) + j) CONFIG.maxRetryDelay) := by
  refine ⟨?_, ?_, ?_, ?_⟩
  · exact withRetryFrom_invocations_le op operationName rand maxRetries maxRetries 1 (by omega)
  · intro s a h1 h2 hok hfail
    have hs : 1 + (s - 1) = s := by omega
    have := withRetryFrom_first_ok op operationName rand maxRetries a (s - 1) 1
      (by omega) le_rfl (by rw [hs]; exact hok)
      (fun j hj hj2 => hfail j hj (by omega))
    unfold withRetry
    rw [this]
    have hinv : s - 1 + 1 = s := by omega
    rw [hinv]
  · intro err hop
    have := withRetryFrom_all_fail op operationName rand maxRetries err (maxRetries - 1) 1
      (by omega) le_rfl (fun j hj hj2 => hop j hj hj2)
    unfold withRetry
    rw [this]
    have hinv : maxRetries - 1 + 1 = maxRetries := by omega
    rw [hinv]
  · intro k
    exact getBackoffDelay_form rand k (hrand k).1 (hrand k).2

/-- Witness for C4: a two-attempt run in which every attempt fails (with
zero jitter) invokes the operation twice, sleeps once, logs the name and
attempt count, and re-raises the last error. -/
theorem withRetry_contract_witness :
    withRetry (fun _ => (Except.error "boom" : Except String Nat)) "op" 2 (fun _ => 0) =
      { result := Except.error "boom", invocations := 2,
        delays := [getBackoffDelay (fun _ => 0) 1], finalLog := some ("op", 2) } := by
  have h := (withRetry_contract (fun _ => (Except.error "boom" : Except String Nat)) "op"
      (fun _ => 0) 2 (fun _ => ⟨le_refl 0, by norm_num⟩) (by norm_num)).2.2.1
      (fun _ => "boom") (fun _ _ _ => rfl)
  simpa [List.range'_succ] using h

/-- Claim C10: called with `maxRetries = 0` (the loop guard `1 <= 0` fails
immediately) `withRetry` returns `undefined` without invoking the operation
and without raising. -/
theorem withRetry_zero_attempts {E A : Type} (op : Nat → Except E A)
    (operationName : String) (rand : Nat → ℚ) :
    withRetry op operationName 0 rand =
      { result := Except.ok none, invocations := 0, delays := [], finalLog := none } :=
  withRetryFrom_gt op operationName rand 0 1 (by omega)

lemma processQueue_exhaust_aux (sendOk : Nat → Bool) (hfail : ∀ k, sendOk k = false) :
    ∀ r (m : PendingMessage) (rest : List PendingMessage) (k : Nat),
      m.retries = r → 1 ≤ r →
      processQueue sendOk k (m :: rest) =
        exhaustTrace m rest ++ processQueue sendOk (k + r) rest := by
  intro r
  induction r with
  | zero =>
      intro m rest k hr h1
      omega
  | succ n ih =>
      intro m rest k hr h1
      rcases Nat.eq_zero_or_pos n with hn | hn
      · subst hn
        rw [processQueue, if_neg (by simp [hfail]), dif_neg (by omega)]
        have hm : ({ m with retries := 1 } : PendingMessage) = m := by
          cases m
          simp_all
        unfold exhaustTrace
        rw [hr]
        simp [hm]
      · have hgt : 1 < m.retries := by omega
        rw [processQueue, if_neg (by simp [hfail]), dif_pos hgt]
        rw [ih { m with retries := m.retries - 1 } rest (k + 1) (by simp [hr]) hn]
        have hk : k + 1 + n = k + (n + 1) := by omega
        rw [hk, ← List.cons_append]
        congr 1
        unfold exhaustTrace
        have hres : ({ m with retries := m.retries - 1 } : PendingMessage).retries = n := by
          simp [hr]
        rw [hres, hr]
        obtain ⟨p, rfl⟩ : ∃ p, n = p + 1 := ⟨n - 1, by omega⟩
        simp only [Nat.add_sub_cancel]
        rw [List.range'_concat, List.reverse_append]
        have e1 : 2 + 1 * p = p + 1 + 1 := by omega
        rw [e1]
        simp only [List.reverse_cons, List.reverse_nil, List.nil_append, List.map_cons,
          List.cons_append, Nat.add_sub_cancel]
        have hm : ({ m with retries := p + 1 + 1 } : PendingMessage) = m := by
          cases m
          simp_all
        rw [hm]

/-- Claim C1: when every send attempt fails, a front message with
`retries = N ≥ 1` is attempted exactly `N` times: after each of the first
`N - 1` failures it is pushed back to the front of the queue (the queue
after each such iteration is the decremented message consed onto the
untouched rest, per `exhaustTrace`), and after the `N`-th failure it is
dropped — the drain continues with `rest` alone, so the message is never
retried again. -/
theorem processQueue_exhausts_failed_message (sendOk : Nat → Bool)
    (hfail : ∀ k, sendOk k = false) (m : PendingMessage)
    (rest : List PendingMessage) (k : Nat) (hN : 1 ≤ m.retries) :
    processQueue sendOk k (m :: rest) =
      exhaustTrace m rest ++ processQueue sendOk (k + m.retries) rest ∧
    (exhaustTrace m rest).length = m.retries := by
  constructor
  · exact processQueue_exhaust_aux sendOk hfail m.retries m rest k rfl hN
  · unfold exhaustTrace
    simp
    omega

/-- Witness for C1: a front message with budget 2 under permanent failure is
requeued at the front once (budget 1) and then dropped, leaving the rest of
the queue to drain. -/
theorem processQueue_exhausts_failed_message_witness :
    processQueue (fun _ => false) 0
        [{ toAddr := "a", message := "x", retries := 2, timestamp := 0 }] =
      exhaustTrace { toAddr := "a", message := "x", retries := 2, timestamp := 0 } [] ++
        processQueue (fun _ => false) 2 [] ∧
      (exhaustTrace { toAddr := "a", message := "x", retries := 2, timestamp := 0 } []).length
        = 2 :=
  processQueue_exhausts_failed_message (fun _ => false) (fun _ => rfl)
    { toAddr := "a", message := "x", retries := 2, timestamp := 0 } [] 0 (by decide)

lemma shouldReconnectOf_eq_not_isLoggedOutErr (e : Option CloseErr) :
    shouldReconnectOf e = !isLoggedOutErr e := by
  cases e with
  | none => rfl
  | some err =>
      cases h : err.boomStatusCode with
      | none => simp [shouldReconnectOf, isLoggedOutErr, h]
      | some code => simp [shouldReconnectOf, isLoggedOutErr, h, bne]

/-- Counterexample to claim C5 as stated: `clearSessionFromBucket` filters
the deletion batch with `endsWith('lock.json')`, so an object under the
prefix other than the lock object — here `applock.json`, whose name happens
to end with `lock.json` — survives `clear()`. -/
theorem clearSession_spares_nonlock_named_object_cex :
    jsStartsWith "sessions/whatsapp-bot/applock.json" CONFIG.sessionsPref = true ∧
    "sessions/whatsapp-bot/applock.json" ≠ "sessions/whatsapp-bot/lock.json" ∧
    "sessions/whatsapp-bot/applock.json" ∈
      clearSessionFromBucket CONFIG.sessionsPref
        ["sessions/whatsapp-bot/creds.json", "sessions/whatsapp-bot/lock.json",
         "sessions/whatsapp-bot/applock.json"] := by
  refine ⟨by decide, by decide, ?_⟩
  decide

/-- Claim C5 (amended): `clear()` deletes every remote object under the
session prefix whose name does not end with `lock.json`; every listed
object whose name ends with `lock.json` — in particular the lock object
`<prefix>/lock.json` — is left in place, as is every object outside the
prefix, and no object is created. -/
theorem clearSession_deletes_all_but_lock_suffixed (pref : String) (objects : List String) :
    (∀ nm, jsStartsWith nm pref = true → jsEndsWith nm "lock.json" = false →
      nm ∉ clearSessionFromBucket pref objects) ∧
    (∀ nm ∈ objects, jsEndsWith nm "lock.json" = true →
      nm ∈ clearSessionFromBucket pref objects) ∧
    (∀ nm ∈ objects, jsStartsWith nm pref = false →
      nm ∈ clearSessionFromBucket pref objects) ∧
    (∀ nm ∈ clearSessionFromBucket pref objects, nm ∈ objects) := by
  unfold clearSessionFromBucket
  refine ⟨?_, ?_, ?_, ?_⟩
  · intro nm h1 h2 hmem
    have := List.of_mem_filter hmem
    simp [h1, h2] at this
  · intro nm hm h1
    exact List.mem_filter.mpr ⟨hm, by simp [h1]⟩
  · intro nm hm h1
    exact List.mem_filter.mpr ⟨hm, by simp [h1]⟩
  · intro nm hm
    exact (List.mem_filter.mp hm).1

/-- Witness for the amended C5: on a concrete bucket listing, `creds.json`
is deleted while the lock object survives. -/
theorem clearSession_deletes_all_but_lock_suffixed_witness :
    "sessions/whatsapp-bot/creds.json" ∉
      clearSessionFromBucket CONFIG.sessionsPref
        ["sessions/whatsapp-bot/creds.json", "sessions/whatsapp-bot/lock.json"] ∧
    "sessions/whatsapp-bot/lock.json" ∈
      clearSessionFromBucket CONFIG.sessionsPref
        ["sessions/whatsapp-bot/creds.json", "sessions/whatsapp-bot/lock.json"] :=
  ⟨(clearSession_deletes_all_but_lock_suffixed CONFIG.sessionsPref
      ["sessions/whatsapp-bot/creds.json", "sessions/whatsapp-bot/lock.json"]).1
      "sessions/whatsapp-bot/creds.json" (by decide) (by decide),
   (clearSession_deletes_all_but_lock_suffixed CONFIG.sessionsPref
      ["sessions/whatsapp-bot/creds.json", "sessions/whatsapp-bot/lock.json"]).2.1
      "sessions/whatsapp-bot/lock.json" (by decide) (by decide)⟩

/-- Claim C7: a pairing-challenge update arriving within the debounce
window of the last processed challenge returns early, leaving the whole
state — in particular the exposed artifact `qrCodeBase64` and the debounce
timer `lastQRTime` — unchanged; one arriving at or past the window exposes
the freshly rendered artifact and resets the debounce timer to the current
time. -/
theorem qr_debounce_behavior (renderQR : String → String) (now : Nat)
    (token : String) (s : BotState) :
    (now - s.lastQRTime < CONFIG.qrDebounceMs →
      step renderQR s (BotEvent.connUpdate now
        { connection := none, lastDisconnect := none, qr := some token }) = s) ∧
    (¬ now - s.lastQRTime < CONFIG.qrDebounceMs →
      (step renderQR s (BotEvent.connUpdate now
          { connection := none, lastDisconnect := none, qr := some token })).qrCodeBase64
          = some (renderQR token) ∧
      (step renderQR s (BotEvent.connUpdate now
          { connection := none, lastDisconnect := none, qr := some token })).lastQRTime
          = now) := by
  constructor
  · intro h
    simp [step, connectionUpdateHandler, h]
  · intro h
    simp [step, connectionUpdateHandler, connectionStatusHandler, h]

/-- Witness for C7 at concrete inputs: with the debounce timer at 0, a
challenge at `now = 0` is debounced and changes nothing; a challenge at
`now = 5000` is rendered and resets the timer. -/
theorem qr_debounce_behavior_witness :
    (step (fun t => t) (⟨false, false, none, 0, [], [], [], 0⟩ : BotState)
        (BotEvent.connUpdate 0 ⟨none, none, some "tok"⟩) =
      (⟨false, false, none, 0, [], [], [], 0⟩ : BotState)) ∧
    ((step (fun t => t) (⟨false, false, none, 0, [], [], [], 0⟩ : BotState)
        (BotEvent.connUpdate 5000 ⟨none, none, some "tok"⟩)).qrCodeBase64 = some "tok" ∧
     (step (fun t => t) (⟨false, false, none, 0, [], [], [], 0⟩ : BotState)
        (BotEvent.connUpdate 5000 ⟨none, none, some "tok"⟩)).lastQRTime = 5000) :=
  ⟨(qr_debounce_behavior (fun t => t) 0 "tok" _).1 (by decide),
   (qr_debounce_behavior (fun t => t) 5000 "tok" _).2 (by decide)⟩

lemma handleClose_isShuttingDown (s : BotState) (ld : Option CloseErr) :
    (handleClose s ld).isShuttingDown = s.isShuttingDown := by
  unfold handleClose
  cases hl : isLoggedOutErr ld <;>
    cases hb : shouldReconnectOf ld && !s.isShuttingDown <;> simp [hl, hb]

lemma handleClose_connectAttempts (s : BotState) (ld : Option CloseErr) :
    (handleClose s ld).connectAttempts = s.connectAttempts := by
  unfold handleClose
  cases hl : isLoggedOutErr ld <;>
    cases hb : shouldReconnectOf ld && !s.isShuttingDown <;> simp [hl, hb]

lemma handleClose_timers_of_shutdown (s : BotState) (ld : Option CloseErr)
    (h : s.isShuttingDown = true) :
    (handleClose s ld).reconnectTimers = s.reconnectTimers := by
  unfold handleClose
  cases hl : isLoggedOutErr ld <;> simp [hl, h]

lemma connectionUpdateHandler_isShuttingDown (renderQR : String → String) (now : Nat)
    (s : BotState) (u : ConnUpdate) :
    (connectionUpdateHandler renderQR now s u).isShuttingDown = s.isShuttingDown := by
  unfold connectionUpdateHandler connectionStatusHandler
  cases hq : u.qr with
  | none =>
      cases hc : u.connection with
      | none => rfl
      | some st => cases st <;> simp [handleClose_isShuttingDown]
  | some token =>
      by_cases hd : now - s.lastQRTime < CONFIG.qrDebounceMs
      · simp [hd]
      · cases hc : u.connection with
        | none => simp [hd]
        | some st => cases st <;> simp [hd, handleClose_isShuttingDown]

lemma connectionUpdateHandler_connectAttempts (renderQR : String → String) (now : Nat)
    (s : BotState) (u : ConnUpdate) :
    (connectionUpdateHandler renderQR now s u).connectAttempts = s.connectAttempts := by
  unfold connectionUpdateHandler connectionStatusHandler
  cases hq : u.qr with
  | none =>
      cases hc : u.connection with
      | none => rfl
      | some st => cases st <;> simp [handleClose_connectAttempts]
  | some token =>
      by_cases hd : now - s.lastQRTime < CONFIG.qrDebounceMs
      · simp [hd]
      · cases hc : u.connection with
        | none => simp [hd]
        | some st => cases st <;> simp [hd, handleClose_connectAttempts]

lemma connectionUpdateHandler_timers_of_shutdown (renderQR : String → String) (now : Nat)
    (s : BotState) (u : ConnUpdate) (h : s.isShuttingDown = true) :
    (connectionUpdateHandler renderQR now s u).reconnectTimers = s.reconnectTimers := by
  unfold connectionUpdateHandler connectionStatusHandler
  cases hq : u.qr with
  | none =>
      cases hc : u.connection with
      | none => rfl
      | some st =>
          cases st <;> simp [handleClose_timers_of_shutdown _ _ h]
  | some token =>
      by_cases hd : now - s.lastQRTime < CONFIG.qrDebounceMs
      · simp [hd]
      · cases hc : u.connection with
        | none => simp [hd]
        | some st =>
            cases st <;>
              simp [hd, handleClose_timers_of_shutdown
                ({ s with lastQRTime := now, qrCodeBase64 := some (renderQR token) }) _ h]

/-- Claim C3: a close event whose reason is the Boom `loggedOut` status code
empties the local session directory (`fs.rm` + `fs.mkdir`), replaces the
remote object set by `clearSessionFromBucket` (emptying the session prefix
up to the `lock.json`-named objects), and schedules no reconnect timer —
the cleanup completes inside the handler before any reconnect could be
allowed; a close event with any other reason (non-Boom errors and absent
errors included) modifies neither the local session directory nor the
remote objects. -/
theorem logout_close_clears_session (renderQR : String → String) (now : Nat)
    (s : BotState) (ld : Option CloseErr) :
    (isLoggedOutErr ld = true →
      (step renderQR s (BotEvent.connUpdate now
          ⟨some ConnStatus.closed, ld, none⟩)).localFiles = [] ∧
      (step renderQR s (BotEvent.connUpdate now
          ⟨some ConnStatus.closed, ld, none⟩)).remoteObjects =
        clearSessionFromBucket CONFIG.sessionsPref s.remoteObjects ∧
      (step renderQR s (BotEvent.connUpdate now
          ⟨some ConnStatus.closed, ld, none⟩)).reconnectTimers = s.reconnectTimers) ∧
    (isLoggedOutErr ld = false →
      (step renderQR s (BotEvent.connUpdate now
          ⟨some ConnStatus.closed, ld, none⟩)).localFiles = s.localFiles ∧
      (step renderQR s (BotEvent.connUpdate now
          ⟨some ConnStatus.closed, ld, none⟩)).remoteObjects = s.remoteObjects) := by
  constructor
  · intro h
    have hrec : shouldReconnectOf ld = false := by
      rw [shouldReconnectOf_eq_not_isLoggedOutErr, h]
      rfl
    simp [step, connectionUpdateHandler, connectionStatusHandler, handleClose, h, hrec]
  · intro h
    cases hb : shouldReconnectOf ld && !s.isShuttingDown <;>
      simp [step, connectionUpdateHandler, connectionStatusHandler, handleClose, h, hb]

/-- Witness for C3 at concrete inputs: a Boom 401 close clears the session
stores and schedules nothing; a Boom 500 close leaves them untouched. -/
theorem logout_close_clears_session_witness :
    ((step (fun t => t) (⟨true, false, none, 0, ["creds.json"],
          ["sessions/whatsapp-bot/creds.json"], [], 0⟩ : BotState)
        (BotEvent.connUpdate 9 ⟨some ConnStatus.closed,
          some ⟨some 401, "logged out"⟩, none⟩)).localFiles = [] ∧
     (step (fun t => t) (⟨true, false, none, 0, ["creds.json"],
          ["sessions/whatsapp-bot/creds.json"], [], 0⟩ : BotState)
        (BotEvent.connUpdate 9 ⟨some ConnStatus.closed,
          some ⟨some 401, "logged out"⟩, none⟩)).remoteObjects =
        clearSessionFromBucket CONFIG.sessionsPref ["sessions/whatsapp-bot/creds.json"] ∧
     (step (fun t => t) (⟨true, false, none, 0, ["creds.json"],
          ["sessions/whatsapp-bot/creds.json"], [], 0⟩ : BotState)
        (BotEvent.connUpdate 9 ⟨some ConnStatus.closed,
          some ⟨some 401, "logged out"⟩, none⟩)).reconnectTimers = []) ∧
    ((step (fun t => t) (⟨true, false, none, 0, ["creds.json"],
          ["sessions/whatsapp-bot/creds.json"], [], 0⟩ : BotState)
        (BotEvent.connUpdate 9 ⟨some ConnStatus.closed,
          some ⟨some 500, "stream error"⟩, none⟩)).localFiles = ["creds.json"] ∧
     (step (fun t => t) (⟨true, false, none, 0, ["creds.json"],
          ["sessions/whatsapp-bot/creds.json"], [], 0⟩ : BotState)
        (BotEvent.connUpdate 9 ⟨some ConnStatus.closed,
          some ⟨some 500, "stream error"⟩, none⟩)).remoteObjects =
        ["sessions/whatsapp-bot/creds.json"]) :=
  ⟨(logout_close_clears_session (fun t => t) 9 _ (some ⟨some 401, "logged out"⟩)).1
      (by decide),
   (logout_close_clears_session (fun t => t) 9 _ (some ⟨some 500, "stream error"⟩)).2
      (by decide)⟩

/-- Claim C6: the `isShuttingDown` flag is one-way — no event unsets it —
and once it is set no step schedules a new reconnect timer (the timer list
is only ever left alone or consumed) and no reconnect is executed
(`connectAttempts` never grows); a close event with a non-logout reason
arriving while the flag is unset appends exactly one reconnect timer with
the fixed `CONFIG.reconnectDelayMs` delay. -/
theorem shutdown_flag_one_way_no_reconnect (renderQR : String → String) :
    (∀ (s : BotState) (e : BotEvent), s.isShuttingDown = true →
      (step renderQR s e).isShuttingDown = true ∧
      ((step renderQR s e).reconnectTimers = s.reconnectTimers ∨
        (step renderQR s e).reconnectTimers = s.reconnectTimers.tail) ∧
      (step renderQR s e).connectAttempts = s.connectAttempts) ∧
    (∀ (s : BotState) (now : Nat) (ld : Option CloseErr), s.isShuttingDown = false →
      isLoggedOutErr ld = false →
      (step renderQR s (BotEvent.connUpdate now
        ⟨some ConnStatus.closed, ld, none⟩)).reconnectTimers =
        s.reconnectTimers ++ [CONFIG.reconnectDelayMs]) := by
  constructor
  · intro s e h
    cases e with
    | connUpdate now u =>
        exact ⟨by rw [step, connectionUpdateHandler_isShuttingDown, h],
          Or.inl (by rw [step, connectionUpdateHandler_timers_of_shutdown _ _ _ _ h]),
          by rw [step, connectionUpdateHandler_connectAttempts]⟩
    | shutdownSignal => exact ⟨rfl, Or.inl rfl, rfl⟩
    | reconnectTimerFire =>
        cases ht : s.reconnectTimers with
        | nil => simp [step, ht, h]
        | cons t ts => simp [step, ht, h]
  · intro s now ld h hl
    have hrec : shouldReconnectOf ld = true := by
      rw [shouldReconnectOf_eq_not_isLoggedOutErr, hl]
      rfl
    simp [step, connectionUpdateHandler, connectionStatusHandler, handleClose, h, hl, hrec]

/-- Witness for C6 at concrete inputs: with the flag set, a pending
reconnect timer fires without reconnecting; with the flag unset, a Boom 500
close schedules exactly one 5000 ms reconnect timer. -/
theorem shutdown_flag_one_way_no_reconnect_witness :
    ((step (fun t => t) (⟨false, true, none, 0, [], [], [5000], 0⟩ : BotState)
        BotEvent.reconnectTimerFire).isShuttingDown = true ∧
     ((step (fun t => t) (⟨false, true, none, 0, [], [], [5000], 0⟩ : BotState)
        BotEvent.reconnectTimerFire).reconnectTimers = [5000] ∨
      (step (fun t => t) (⟨false, true, none, 0, [], [], [5000], 0⟩ : BotState)
        BotEvent.reconnectTimerFire).reconnectTimers = []) ∧
     (step (fun t => t) (⟨false, true, none, 0, [], [], [5000], 0⟩ : BotState)
        BotEvent.reconnectTimerFire).connectAttempts = 0) ∧
    (step (fun t => t) (⟨true, false, none, 0, [], [], [], 0⟩ : BotState)
        (BotEvent.connUpdate 9 ⟨some ConnStatus.closed,
          some ⟨some 500, "stream error"⟩, none⟩)).reconnectTimers =
      [CONFIG.reconnectDelayMs] :=
  ⟨(shutdown_flag_one_way_no_reconnect (fun t => t)).1
      (⟨false, true, none, 0, [], [], [5000], 0⟩ : BotState)
      BotEvent.reconnectTimerFire rfl,
   (shutdown_flag_one_way_no_reconnect (fun t => t)).2
      (⟨true, false, none, 0, [], [], [], 0⟩ : BotState) 9
      (some ⟨some 500, "stream error"⟩) rfl (by decide)⟩

/-- Claim C8: for every `POST /send-message` request — with "missing"
formalized as the JavaScript falsiness check `!to || !message` the route
performs — a missing `to` or `message` yields `400`; with both present, a
bot that is not connected, or a full queue, yields `503`; otherwise the
response is `200` with `success: true`, `queued: true` and the normalized
recipient `toWhatsAppJID(to)`.  The hypothesis `hsock` is the class
invariant that `isConnected` is only ever set by handlers attached to a
created socket. -/
theorem send_message_endpoint_responses (toField messageField : Option String)
    (isConnected sockPresent : Bool) (q : List PendingMessage) (now : Nat)
    (hsock : isConnected = true → sockPresent = true) :
    ((jsFalsy toField || jsFalsy messageField) = true →
      (handleSendMessage toField messageField isConnected sockPresent q now).1.status
        = 400) ∧
    ((jsFalsy toField || jsFalsy messageField) = false →
      (isConnected = false ∨ CONFIG.messageQueueMaxSize ≤ q.length) →
      (handleSendMessage toField messageField isConnected sockPresent q now).1.status
        = 503) ∧
    ((jsFalsy toField || jsFalsy messageField) = false →
      isConnected = true → q.length < CONFIG.messageQueueMaxSize →
      (handleSendMessage toField messageField isConnected sockPresent q now).1 =
        { status := 200, success := true, queued := some true,
          toJid := some (toWhatsAppJID (toField.getD "")), errorMsg := none }) := by
  refine ⟨?_, ?_, ?_⟩
  · intro hf
    simp [handleSendMessage, hf]
  · intro hf hcase
    rcases hcase with hc | hq
    · simp [handleSendMessage, hf, hc]
    · by_cases hc : isConnected = true
      · have hs := hsock hc
        simp [handleSendMessage, enqueue, hf, hc, hs, hq]
      · simp at hc
        simp [handleSendMessage, hf, hc]
  · intro hf hc hq
    have hs := hsock hc
    have hq' : ¬ CONFIG.messageQueueMaxSize ≤ q.length := by omega
    simp [handleSendMessage, enqueue, hf, hc, hs, hq']

/-- Witness for C8 at concrete inputs: a missing body field gives 400; a
disconnected bot gives 503; a connected bot with a non-full queue gives the
200 body with the normalized recipient. -/
theorem send_message_endpoint_responses_witness :
    ((handleSendMessage none (some "hello") true true [] 0).1.status = 400) ∧
    ((handleSendMessage (some "+5511999999999") (some "hello") false false [] 0).1.status
      = 503) ∧
    ((handleSendMessage (some "+5511999999999") (some "hello") true true [] 0).1 =
      { status := 200, success := true, queued := some true,
        toJid := some (toWhatsAppJID "+5511999999999"), errorMsg := none }) :=
  ⟨(send_message_endpoint_responses none (some "hello") true true [] 0
      (fun _ => rfl)).1 (by decide),
   (send_message_endpoint_responses (some "+5511999999999") (some "hello") false false [] 0
      (fun h => h)).2.1 (by decide) (Or.inl rfl),
   (send_message_endpoint_responses (some "+5511999999999") (some "hello") true true [] 0
      (fun _ => rfl)).2.2 (by decide) rfl (by decide)⟩
